import Mathlib

/-!
Verification development for `mariadb_to_mongo.py` (jwoehr/dbstuff):
a one-shot migrator copying one MariaDB table into one MongoDB collection.

Shallow embedding notes:
* Python runtime values flowing out of the mariadb driver are modelled by the
  inductive type `Value`.  Machine-level details irrelevant to the claims
  (float bit patterns, binary blobs, unrecognized driver types) are carried
  as abstract payloads that the code never inspects.
* The `isinstance` dispatch in `get_rows_dict_list` is modelled branch by
  branch.  Crucially, in Python `datetime.datetime` is a subclass of
  `datetime.date`, so the `isinstance(value, datetime.date)` branch fires for
  datetime values as well as for pure dates; the embedding mirrors this by
  sending both `Value.vdate` and `Value.vdatetime` through that branch.
* `bson.Decimal128(value)` validates its argument with a decimal context
  configured for IEEE 754-2008 decimal128 — 34 significant digits, extreme
  coefficient-form exponents -6176 and 6111 — whose traps include
  `decimal.Inexact`, `decimal.Overflow` and `decimal.InvalidOperation`, so a
  decimal that is not exactly representable in that format raises instead of
  being rounded.  The embedding captures this with `fitsDecimal128` and a
  fallible `normalize`; on success the numeric value is preserved exactly.
* Fallible Python operations (attribute access on `None`, a failing
  `SELECT`, `IndexError` on list indexing, pymongo's `InvalidOperation`)
  return `Except PyError`.
* `datetime.datetime.utcnow()` is modelled by threading the current wall
  clock `now : DTime` as an explicit parameter.
-/

namespace MariaDBToMongo

/-- A naive Python `datetime.datetime`: year, month, day, hour, minute,
second, microsecond. -/
structure DTime where
  year : Nat
  month : Nat
  day : Nat
  hour : Nat
  minute : Nat
  second : Nat
  microsecond : Nat
  deriving DecidableEq, Repr

/-- A `decimal.Decimal` as its `as_tuple()` triple: sign, coefficient,
exponent.  Exact fixed-point arithmetic, no floating-point rounding. -/
structure Dec where
  sign : Bool
  coeff : Nat
  exp : Int
  deriving DecidableEq, Repr

/-- A Python runtime value as returned by the mariadb driver cursor, plus the
`vdecimal128` result type produced by normalization (`bson.Decimal128`). -/
inductive Value where
  | vstring (s : String)
  | vint (n : Int)
  | vfloat (bits : Nat)
  | vbool (b : Bool)
  | vbinary (bytes : List Nat)
  | vnull
  | vdecimal (d : Dec)
  | vdecimal128 (d : Dec)
  | vdate (y m d : Nat)
  | vdatetime (dt : DTime)
  | vtimedelta (days : Int) (seconds : Nat) (micros : Nat)
  | vother (tag : Nat)
  deriving DecidableEq, Repr

/-- An exception escaping one of the modelled Python operations.
`decimalTrap` is the `decimal.Inexact` / `decimal.Overflow` exception raised
by the trapping context inside `bson.Decimal128` for decimals that are not
exactly representable in the decimal128 format. -/
inductive PyError where
  | noneTypeError
  | tableMissing
  | indexError
  | invalidOperation
  | decimalTrap
  deriving DecidableEq, Repr

/-- Number of base-10 digits of `n` (with `0` counted as zero digits);
the first argument is recursion fuel, always called with `fuel = n`. -/
def digitLen10 : Nat → Nat → Nat
  | 0, _ => 0
  | fuel + 1, n => if n = 0 then 0 else digitLen10 fuel (n / 10) + 1

/-- Number of significant base-10 digits of a coefficient. -/
def sigDigits10 (n : Nat) : Nat :=
  digitLen10 n n

/-- Count of trailing base-10 zeros; fuel-driven, called with `fuel = n`. -/
def tzAux : Nat → Nat → Nat
  | 0, _ => 0
  | fuel + 1, n => if n % 10 == 0 && n != 0 then tzAux fuel (n / 10) + 1 else 0

/-- Count of trailing base-10 zeros of `n` (0 for `n = 0`). -/
def tz10 (n : Nat) : Nat :=
  tzAux n n

/-- Exact representability of the finite decimal `±coeff·10^exp` in IEEE
754-2008 decimal128: some equal value `c·10^e` exists with `c < 10^34` and
`-6176 ≤ e ≤ 6111`.  After stripping the `z` trailing zeros of the
coefficient (minimal form `c₀·10^e₀`, `e₀ = exp + z`), the only remaining
freedom is padding `c₀` with `j ≥ 0` zeros while lowering the exponent to
`e₀ - j`; such a `j` exists iff
`max 0 (e₀ - 6111) ≤ min (34 - sigDigits c₀) (e₀ + 6176)`.
`bson.Decimal128`'s conversion context (prec 34, trapping `Inexact` and
`Overflow`) raises on exactly the decimals outside this set: rounding that
only discards zeros signals `Rounded`, which is not trapped, while any
nonzero discarded digit signals the trapped `Inexact`, and an exponent too
large to absorb signals the trapped `Overflow`. -/
def fitsDecimal128 (d : Dec) : Bool :=
  if d.coeff = 0 then true
  else
    let z := tz10 d.coeff
    let c0 := d.coeff / 10 ^ z
    let e0 := d.exp + (z : Int)
    let sd := sigDigits10 c0
    decide (sd ≤ 34) &&
      decide (max 0 (e0 - 6111) ≤ min ((34 : Int) - (sd : Int)) (e0 + 6176))

/-- `bson.Decimal128(value)` applied to a finite `decimal.Decimal`: raises
through its trapping context when the value is not exactly representable in
decimal128; otherwise the numeric value is preserved exactly (the model
keeps the argument's surface form, since Python compares decimals by
numeric value). -/
def dec128_of_decimal (d : Dec) : Except PyError Dec :=
  if fitsDecimal128 d then .ok d else .error .decimalTrap

/-- The per-value conversion in the body of `get_rows_dict_list`
(src/mariadb_to_mongo.py lines 153-160):

* `isinstance(value, decimal.Decimal)` → `Decimal128(value)`, which raises
  for decimals not exactly representable in decimal128;
* `isinstance(value, datetime.date)` →
  `datetime.datetime(value.year, value.month, value.day, 0, 0, 0, 0)`.
  In Python `datetime.datetime` is a subclass of `datetime.date`, so this
  branch matches both pure dates and datetimes, truncating any time-of-day;
* `isinstance(value, datetime.timedelta)` → `datetime.datetime.utcnow()`;
* anything else is left as it is, and cannot raise. -/
def normalize (now : DTime) : Value → Except PyError Value
  | .vdecimal d =>
      match dec128_of_decimal d with
      | .error e => .error e
      | .ok d' => .ok (.vdecimal128 d')
  | .vdate y m d => .ok (.vdatetime ⟨y, m, d, 0, 0, 0, 0⟩)
  | .vdatetime dt => .ok (.vdatetime ⟨dt.year, dt.month, dt.day, 0, 0, 0, 0⟩)
  | .vtimedelta _ _ _ => .ok (.vdatetime now)
  | v => .ok v

/-- The value `normalize` yields when it does not raise; related to
`normalize` by `normalize_eq_ok` below, under `convertible`. -/
def normalizeVal (now : DTime) : Value → Value
  | .vdecimal d => .vdecimal128 d
  | .vdate y m d => .vdatetime ⟨y, m, d, 0, 0, 0, 0⟩
  | .vdatetime dt => .vdatetime ⟨dt.year, dt.month, dt.day, 0, 0, 0, 0⟩
  | .vtimedelta _ _ _ => .vdatetime now
  | v => v

/-- Tester: normalizing this value cannot raise — everything except a
decimal beyond decimal128's exact range. -/
def convertible : Value → Bool
  | .vdecimal d => fitsDecimal128 d
  | _ => true

/-- Reading a `bson.Decimal128` back as an exact decimal
(`Decimal128.to_decimal`). -/
def dec128_to_decimal : Value → Option Dec
  | .vdecimal128 d => some d
  | _ => none

/-- Tester: the value is a driver-side exact decimal. -/
def isDecimalVal : Value → Bool
  | .vdecimal _ => true
  | _ => false

/-- Tester: the value is a pure calendar date with no time-of-day component
(a `datetime.date` that is not a `datetime.datetime`). -/
def isPureDate : Value → Bool
  | .vdate _ _ _ => true
  | _ => false

/-- Tester: the value is date-typed in Python's sense, i.e. an instance of
`datetime.date`; this includes `datetime.datetime`, which subclasses it. -/
def isDateLike : Value → Bool
  | .vdate _ _ _ => true
  | .vdatetime _ => true
  | _ => false

/-- Tester: the value is a `datetime.timedelta` interval. -/
def isInterval : Value → Bool
  | .vtimedelta _ _ _ => true
  | _ => false

/-- One row of `INFORMATION_SCHEMA.COLUMNS`, restricted to the fields the
query touches: the schema (database) the table lives in, the table name and
the column name.  The catalog list is ordered as the server reports it. -/
structure CatalogEntry where
  tableSchema : String
  tableName : String
  columnName : String
  deriving DecidableEq, Repr

/-- An open mariadb connection: the database named at connect time, the
server-wide `INFORMATION_SCHEMA.COLUMNS` catalog, and the tables of the
connected database as name → list of rows (positional value tuples). -/
structure Conn where
  database : String
  catalog : List CatalogEntry
  tables : List (String × List (List Value))
  deriving DecidableEq, Repr

/-- The mutable fields of a `MariaDBToMongo` instance: the mariadb
`connection` handle and the pymongo `client` handle, both nullable and
both `None` after `__init__`. -/
structure MState where
  connection : Option Conn
  client : Option Unit
  deriving DecidableEq, Repr

/-- A MongoDB document: an insertion-ordered field-name → value mapping,
exactly the semantics of a Python `dict` built key by key. -/
abbrev Doc := List (String × Value)

/-- Python `dict` assignment `d[k] = v`: overwrite in place when the key is
present (keeping its original position), append otherwise. -/
def dictInsert (d : Doc) (k : String) (v : Value) : Doc :=
  if d.any (fun p => p.1 == k) then
    d.map (fun p => if p.1 == k then (k, v) else p)
  else
    d ++ [(k, v)]

/-- The state of a `MariaDBToMongo` instance right after `__init__`:
both handles are `None`. -/
def initState : MState := ⟨none, none⟩

/-- The `connect` method (lines 48-73).  The outcome of
`mariadb.connect(...)` is supplied as an `Except`: on success the handle is
stored; on `mariadb.Error` the exception is caught and only printed (the
second component collects printed lines) and the handle is left untouched.
The method itself never propagates an error, as its return type shows. -/
def connect (st : MState) (outcome : Except String Conn) : MState × List String :=
  match outcome with
  | .ok c => (⟨some c, st.client⟩, [])
  | .error e => (st, [e])

/-- The `open_client` method (lines 75-76): stores a MongoClient handle. -/
def open_client (st : MState) : MState :=
  ⟨st.connection, some ()⟩

/-- The `close` method (lines 86-98): closes whichever handles are open and
nulls both fields. -/
def close (st : MState) : MState :=
  ⟨none, none⟩

/-- The `get_column_names` method (lines 100-126).  `self.connection.cursor()`
on a `None` handle raises (`AttributeError`); otherwise the cursor runs

  `select COLUMN_NAME from INFORMATION_SCHEMA.COLUMNS where TABLE_NAME='t'`

whose WHERE clause constrains only TABLE_NAME — there is no TABLE_SCHEMA
condition — and the loop appends the single column of every result row, in
catalog order. -/
def get_column_names (st : MState) (t : String) : Except PyError (List String) :=
  match st.connection with
  | none => .error .noneTypeError
  | some conn =>
      .ok ((conn.catalog.filter (fun e => e.tableName == t)).map
        (fun e => e.columnName))

/-- `cursor.execute("SELECT * FROM t")` followed by iterating the cursor: the
rows of table `t` in the connected database, or a `mariadb.Error` when no
such table exists there. -/
def selectStar (conn : Conn) (t : String) : Except PyError (List (List Value)) :=
  match (conn.tables.find? (fun p => p.1 == t)).map (fun p => p.2) with
  | none => .error .tableMissing
  | some rows => .ok rows

/-- The inner loop of `get_rows_dict_list` (lines 149-161):
`for i in range(len(row)): row_dict[col_names[i]] = <normalized row[i]>`.
The column list and the row are consumed in step; `col_names[i]` raises
`IndexError` when the row is longer than the column list (line 151, before
the value conversion of that iteration), and a raising conversion — a
decimal beyond decimal128's exact range — aborts the whole loop. -/
def buildRowDictAux (now : DTime) :
    List String → List Value → Doc → Except PyError Doc
  | _, [], acc => .ok acc
  | [], _ :: _, _ => .error .indexError
  | k :: ks, v :: vs, acc =>
      match normalize now v with
      | .error e => .error e
      | .ok nv => buildRowDictAux now ks vs (dictInsert acc k nv)

/-- One iteration of the outer row loop: build `row_dict` from an empty dict. -/
def buildRowDict (now : DTime) (colNames : List String) (row : List Value) :
    Except PyError Doc :=
  buildRowDictAux now colNames row []

/-- The outer row loop of `get_rows_dict_list`: one document appended per
cursor row, aborting on the first raised exception. -/
def build_docs (now : DTime) (colNames : List String) :
    List (List Value) → Except PyError (List Doc)
  | [] => .ok []
  | r :: rs =>
      match buildRowDict now colNames r with
      | .error e => .error e
      | .ok d =>
          match build_docs now colNames rs with
          | .error e => .error e
          | .ok ds => .ok (d :: ds)

/-- The `get_rows_dict_list` method (lines 128-163): fetch the column names,
open a `SELECT *` cursor on the same connection, and turn every row into a
dict of normalized values. -/
def get_rows_dict_list (st : MState) (now : DTime) (t : String) :
    Except PyError (List Doc) :=
  match get_column_names st t with
  | .error e => .error e
  | .ok colNames =>
      match st.connection with
      | none => .error .noneTypeError
      | some conn =>
          match selectStar conn t with
          | .error e => .error e
          | .ok rows => build_docs now colNames rows

/-- The result object pymongo returns from `insert_many`. -/
structure InsertManyResult where
  insertedCount : Nat
  deriving DecidableEq, Repr

/-- pymongo `Collection.insert_many(documents)`: its documentation states it
raises `InvalidOperation` if `documents` is empty; otherwise the whole batch
is appended to the collection and the result reports the inserted count. -/
def insert_many (coll : List Doc) (docs : List Doc) :
    Except PyError (InsertManyResult × List Doc) :=
  if docs.isEmpty then .error .invalidOperation
  else .ok (⟨docs.length⟩, coll ++ docs)

/-- The `put_rows` method (lines 165-189): indexing a `None` client raises;
otherwise the rows are handed to `insert_many` on the named collection.  The
target collection's contents before and after are threaded explicitly. -/
def put_rows (st : MState) (rows : List Doc) (dbName collName : String)
    (targetColl : List Doc) : Except PyError (InsertManyResult × List Doc) :=
  match st.client with
  | none => .error .noneTypeError
  | some _ => insert_many targetColl rows

/-- The `get_put_rows` method (lines 191-217). -/
def get_put_rows (st : MState) (now : DTime) (t dbName collName : String)
    (targetColl : List Doc) : Except PyError (InsertManyResult × List Doc) :=
  match get_rows_dict_list st now t with
  | .error e => .error e
  | .ok rows => put_rows st rows dbName collName targetColl

/-- The observable outcome of one script run: the process exit status and the
documents present in the target collection afterwards. -/
structure RunResult where
  exitCode : Nat
  written : List Doc
  deriving DecidableEq, Repr

/-- The `__main__` block (lines 220-274) after successful argument parsing:
construct the instance, `connect` (which swallows its own failures),
`open_client`, `get_put_rows`, `close`, `sys.exit(0)`.  No exception handler
wraps the run, so any exception escaping `get_put_rows` terminates the
interpreter with exit status 1 and nothing is written. -/
def script_main (connOutcome : Except String Conn) (now : DTime)
    (table dbName collName : String) : RunResult :=
  let st1 := (connect initState connOutcome).1
  let st2 := open_client st1
  match get_put_rows st2 now table dbName collName [] with
  | .ok (_, finalColl) => ⟨0, finalColl⟩
  | .error _ => ⟨1, []⟩

/-! ## Helper lemmas -/

-- Inserting a key that is absent from the dict appends it at the end.
theorem dictInsert_append (d : Doc) (k : String) (v : Value)
    (h : ∀ p ∈ d, p.1 ≠ k) : dictInsert d k v = d ++ [(k, v)] := by
  have hany : d.any (fun p => p.1 == k) = false := by
    simp only [List.any_eq_false, beq_iff_eq]
    exact h
  simp [dictInsert, hany]

-- On a convertible value, normalization succeeds with its success value.
theorem normalize_eq_ok (now : DTime) (v : Value)
    (h : convertible v = true) :
    normalize now v = Except.ok (normalizeVal now v) := by
  cases v <;> simp_all [convertible, normalize, normalizeVal, dec128_of_decimal]

-- With pairwise-distinct column names, none already in the accumulator, and
-- every value convertible, the dict-building loop is exactly the zip of
-- names with normalized values.
theorem buildRowDictAux_eq (now : DTime) (vs : List Value) :
    ∀ (ks : List String) (acc : Doc),
      ks.Nodup → (∀ p ∈ acc, p.1 ∉ ks) → vs.length = ks.length →
      (∀ v ∈ vs, convertible v = true) →
      buildRowDictAux now ks vs acc =
        Except.ok (acc ++ ks.zip (vs.map (normalizeVal now))) := by
  induction vs with
  | nil =>
      intro ks acc _ _ hlen _
      cases ks with
      | nil => simp [buildRowDictAux]
      | cons k ks' => exact absurd hlen.symm (by simp)
  | cons v vs' ih =>
      intro ks acc hnd hacc hlen hconv
      cases ks with
      | nil => exact absurd hlen (by simp)
      | cons k ks' =>
          have hk : ∀ p ∈ acc, p.1 ≠ k := fun p hp he =>
            hacc p hp (he ▸ List.mem_cons_self k ks')
          have hnd' := List.nodup_cons.1 hnd
          have hv : normalize now v = Except.ok (normalizeVal now v) :=
            normalize_eq_ok now v (hconv v (List.mem_cons_self v vs'))
          have step : buildRowDictAux now (k :: ks') (v :: vs') acc =
              buildRowDictAux now ks' vs'
                (dictInsert acc k (normalizeVal now v)) := by
            simp [buildRowDictAux, hv]
          rw [step, dictInsert_append acc k _ hk,
            ih ks' (acc ++ [(k, normalizeVal now v)]) hnd'.2 ?hacc
              (by simpa using hlen)
              (fun v' hv' => hconv v' (List.mem_cons_of_mem _ hv'))]
          · simp
          case hacc =>
            intro p hp
            rcases List.mem_append.1 hp with hpa | hpk
            · exact fun hmem => hacc p hpa (List.mem_cons_of_mem _ hmem)
            · have : p = (k, normalizeVal now v) := by simpa using hpk
              subst this
              exact hnd'.1

-- The outer row loop maps the dict builder over every row of convertible
-- values.
theorem build_docs_eq (now : DTime) (colNames : List String)
    (hnd : colNames.Nodup) :
    ∀ rows : List (List Value), (∀ r ∈ rows, r.length = colNames.length) →
      (∀ r ∈ rows, ∀ v ∈ r, convertible v = true) →
      build_docs now colNames rows =
        Except.ok (rows.map (fun r => colNames.zip (r.map (normalizeVal now)))) := by
  intro rows
  induction rows with
  | nil => intro _ _; rfl
  | cons r rs ih =>
      intro hlen hconv
      have h1 : buildRowDict now colNames r =
          Except.ok (colNames.zip (r.map (normalizeVal now))) := by
        unfold buildRowDict
        rw [buildRowDictAux_eq now r colNames [] hnd (by simp)
          (hlen r (List.mem_cons_self r rs))
          (hconv r (List.mem_cons_self r rs))]
        simp
      simp [build_docs, h1,
        ih (fun r' hr' => hlen r' (List.mem_cons_of_mem _ hr'))
          (fun r' hr' => hconv r' (List.mem_cons_of_mem _ hr'))]

-- Positional access into a zip, in optional form.
theorem zip_getElem? {α β : Type} :
    ∀ (l1 : List α) (l2 : List β) (i : Nat),
      (l1.zip l2)[i]? =
        (l1[i]?).bind (fun a => (l2[i]?).map (fun b => (a, b))) := by
  intro l1
  induction l1 with
  | nil => intro l2 i; simp
  | cons a l1' ih =>
      intro l2 i
      cases l2 with
      | nil => simp
      | cons b l2' =>
          cases i with
          | zero => simp
          | succ j => simpa using ih l2' j

/-! ## Claim theorems -/

/-- C5 (counterexample): a decimal with 35 significant digits — reachable
from a MariaDB DECIMAL column, whose precision goes up to 65 — is NOT
normalized to an exact document-model decimal: `Decimal128` raises
`decimal.Inexact` through its trapping conversion context, so no normalized
value exists to read back, refuting the claim's universal exact round-trip. -/
theorem decimal_conversion_traps :
    fitsDecimal128 ⟨false, 10000000000000000000000000000000001, 0⟩ = false ∧
    normalize ⟨2020, 1, 1, 0, 0, 0, 0⟩
        (Value.vdecimal ⟨false, 10000000000000000000000000000000001, 0⟩) =
      Except.error PyError.decimalTrap :=
  ⟨rfl, rfl⟩

/-- C5 (amended): every decimal that is exactly representable in the
document model's decimal128 format — at most 34 significant digits, exponent
in range — is converted with its exact digits preserved (never a
floating-point approximation) and reads back equal to the original decimal;
decimals beyond that range raise from the trapping conversion context
instead of being silently approximated. -/
theorem decimal_normalization_exact (now : DTime) (d : Dec)
    (h : fitsDecimal128 d = true) :
    normalize now (Value.vdecimal d) = Except.ok (Value.vdecimal128 d) ∧
    dec128_to_decimal (Value.vdecimal128 d) = some d := by
  refine ⟨?_, rfl⟩
  simp [normalize, dec128_of_decimal, h]

/-- Witness for `decimal_normalization_exact` at the concrete decimal
123.45 (coefficient 12345, exponent -2). -/
theorem decimal_normalization_exact_witness :
    fitsDecimal128 ⟨false, 12345, -2⟩ = true ∧
    normalize ⟨2020, 1, 1, 0, 0, 0, 0⟩ (Value.vdecimal ⟨false, 12345, -2⟩) =
      Except.ok (Value.vdecimal128 ⟨false, 12345, -2⟩) ∧
    dec128_to_decimal (Value.vdecimal128 ⟨false, 12345, -2⟩) =
      some ⟨false, 12345, -2⟩ :=
  ⟨by decide,
    (decimal_normalization_exact ⟨2020, 1, 1, 0, 0, 0, 0⟩ ⟨false, 12345, -2⟩
      (by decide)).1,
    (decimal_normalization_exact ⟨2020, 1, 1, 0, 0, 0, 0⟩ ⟨false, 12345, -2⟩
      (by decide)).2⟩

/-- C6: every time-interval value is normalized to the wall-clock timestamp
current at the moment of conversion, regardless of the interval's own
days/seconds/microseconds content. -/
theorem interval_normalizes_to_now (now : DTime) (days : Int)
    (secs micros : Nat) :
    normalize now (Value.vtimedelta days secs micros) =
      Except.ok (Value.vdatetime now) := rfl

/-- C2 (counterexample): a datetime value carrying the time-of-day 12:30:45
and 123 microseconds IS altered by the date rule — Python's
`datetime.datetime` subclasses `datetime.date`, so the
`isinstance(value, datetime.date)` branch truncates it to midnight,
contradicting the claim that only pure calendar dates are converted. -/
theorem date_rule_alters_datetime :
    normalize ⟨2022, 5, 5, 0, 0, 0, 0⟩
        (Value.vdatetime ⟨2020, 1, 2, 12, 30, 45, 123⟩) =
      Except.ok (Value.vdatetime ⟨2020, 1, 2, 0, 0, 0, 0⟩) ∧
    Value.vdatetime ⟨2020, 1, 2, 0, 0, 0, 0⟩ ≠
      Value.vdatetime ⟨2020, 1, 2, 12, 30, 45, 123⟩ :=
  ⟨rfl, by decide⟩

/-- C2 (amended): every pure calendar date is normalized to a timestamp at
midnight of that date (same year, month, day; hour, minute, second and
fraction zero); moreover every date-typed value, including datetimes — which
subclass `date` in Python — is truncated the same way, so values carrying a
time-of-day component are altered (zeroed), not preserved. -/
theorem date_normalization_midnight (now : DTime) :
    (∀ y m d : Nat, normalize now (Value.vdate y m d) =
      Except.ok (Value.vdatetime ⟨y, m, d, 0, 0, 0, 0⟩)) ∧
    (∀ dt : DTime, normalize now (Value.vdatetime dt) =
      Except.ok (Value.vdatetime ⟨dt.year, dt.month, dt.day, 0, 0, 0, 0⟩)) :=
  ⟨fun _ _ _ => rfl, fun _ => rfl⟩

/-- C7 (counterexample): two failures of the claim.  A datetime with
time-of-day 23:59:59.999999 is neither a decimal, nor a pure calendar date,
nor an interval, yet it does not pass through normalization unchanged — the
date branch truncates it, because `datetime.datetime` subclasses
`datetime.date`.  And normalization is not failure-free: a 35-significant-
digit decimal makes the `Decimal128` conversion raise through its trapping
context. -/
theorem passthrough_fails_for_datetime :
    isDecimalVal (Value.vdatetime ⟨1999, 12, 31, 23, 59, 59, 999999⟩) = false ∧
    isPureDate (Value.vdatetime ⟨1999, 12, 31, 23, 59, 59, 999999⟩) = false ∧
    isInterval (Value.vdatetime ⟨1999, 12, 31, 23, 59, 59, 999999⟩) = false ∧
    normalize ⟨2000, 1, 1, 0, 0, 0, 0⟩
        (Value.vdatetime ⟨1999, 12, 31, 23, 59, 59, 999999⟩) =
      Except.ok (Value.vdatetime ⟨1999, 12, 31, 0, 0, 0, 0⟩) ∧
    Value.vdatetime ⟨1999, 12, 31, 0, 0, 0, 0⟩ ≠
      Value.vdatetime ⟨1999, 12, 31, 23, 59, 59, 999999⟩ ∧
    normalize ⟨2000, 1, 1, 0, 0, 0, 0⟩
        (Value.vdecimal ⟨false, 22222222222222222222222222222222222, 0⟩) =
      Except.error PyError.decimalTrap :=
  ⟨rfl, rfl, rfl, rfl, by decide, rfl⟩

/-- C7 (amended): normalization never fails on a value that is not a
decimal, and every value that is neither a decimal, nor date-typed (where
date-typed includes datetimes, which subclass `date` in Python), nor an
interval passes through unchanged — strings, integers, floats, booleans,
binary blobs, null and unrecognized types alike.  The decimal branch alone
has an error path: it raises for decimals beyond decimal128's exact range. -/
theorem normalize_passthrough (now : DTime) (v : Value)
    (h1 : isDecimalVal v = false) :
    (∃ w, normalize now v = Except.ok w) ∧
    (isDateLike v = false → isInterval v = false →
      normalize now v = Except.ok v) := by
  cases v <;> simp_all [isDecimalVal, isDateLike, isInterval, normalize]

/-- Witness for `normalize_passthrough` at a concrete string value. -/
theorem normalize_passthrough_witness :
    isDecimalVal (Value.vstring "hello") = false ∧
    ((∃ w, normalize ⟨2000, 1, 1, 0, 0, 0, 0⟩ (Value.vstring "hello") =
        Except.ok w) ∧
     (isDateLike (Value.vstring "hello") = false →
      isInterval (Value.vstring "hello") = false →
      normalize ⟨2000, 1, 1, 0, 0, 0, 0⟩ (Value.vstring "hello") =
        Except.ok (Value.vstring "hello"))) :=
  ⟨rfl,
    normalize_passthrough ⟨2000, 1, 1, 0, 0, 0, 0⟩ (Value.vstring "hello") rfl⟩

/-- C8: normalization is deterministic on every non-interval value — two
conversions at different wall-clock instants agree (both succeeding with the
same value or both raising the same error); only the interval branch
consults the clock. -/
theorem normalize_deterministic (n1 n2 : DTime) (v : Value)
    (h : isInterval v = false) : normalize n1 v = normalize n2 v := by
  cases v <;> simp_all [isInterval, normalize]

/-- Witness for `normalize_deterministic` at a concrete decimal value. -/
theorem normalize_deterministic_witness :
    isInterval (Value.vdecimal ⟨false, 12345, -2⟩) = false ∧
    normalize ⟨2020, 1, 1, 0, 0, 0, 0⟩ (Value.vdecimal ⟨false, 12345, -2⟩) =
      normalize ⟨2021, 6, 7, 8, 9, 10, 11⟩ (Value.vdecimal ⟨false, 12345, -2⟩) :=
  ⟨rfl, normalize_deterministic _ _ _ rfl⟩

/-- C9: when `mariadb.connect` fails, `connect` catches the exception and
only prints it: the connection handle stays null, no error escapes (the
method's return carries no error channel), and the run proceeds — the next
use of the handle, `get_column_names`, is what finally raises, and the
script then dies on that later, less informative error. -/
theorem connect_failure_swallowed (e : String) (t : String) (now : DTime)
    (dbName collName : String) :
    (connect initState (Except.error e)).1.connection = none ∧
    (connect initState (Except.error e)).2 = [e] ∧
    get_column_names (connect initState (Except.error e)).1 t =
      Except.error PyError.noneTypeError ∧
    script_main (Except.error e) now t dbName collName = ⟨1, []⟩ :=
  ⟨rfl, rfl, rfl, rfl⟩

/-- C1 (counterexample): a scanned row holding a 35-significant-digit
decimal — reachable from a MariaDB DECIMAL(65) column — produces NO
document: the `Decimal128` conversion raises mid-loop and extraction aborts,
so "every row read from the scan yields exactly one document" is false as
stated.  The first conjunct shows the scan itself does return the row. -/
theorem extract_aborts_on_wide_decimal :
    selectStar ⟨"db", [⟨"db", "w", "p"⟩],
        [("w", [[Value.vdecimal ⟨false, 99999999999999999999999999999999999, 0⟩]])]⟩
      "w" =
      Except.ok [[Value.vdecimal ⟨false, 99999999999999999999999999999999999, 0⟩]] ∧
    get_rows_dict_list
      ⟨some ⟨"db", [⟨"db", "w", "p"⟩],
        [("w", [[Value.vdecimal ⟨false, 99999999999999999999999999999999999, 0⟩]])]⟩,
        some ()⟩
      ⟨2020, 1, 1, 0, 0, 0, 0⟩ "w" = Except.error PyError.decimalTrap :=
  ⟨rfl, rfl⟩

/-- C1 (amended): with the column list the introspection actually returned —
pairwise distinct names, one per row position — and with every scanned value
convertible (decimals exactly representable in decimal128), extraction turns
every scanned row into exactly one document: the result is the row list
mapped to dicts, each dict has exactly as many fields as the row has values,
its field names are the introspected column names in the same positional
order, and its value at position i is the normalized value at row position
i.  A row containing a decimal beyond decimal128's exact range instead
aborts extraction with the raised conversion error, producing no document. -/
theorem extract_one_doc_per_row (st : MState) (conn : Conn) (now : DTime)
    (t : String) (rows : List (List Value)) (colNames : List String)
    (hconn : st.connection = some conn)
    (hsel : selectStar conn t = Except.ok rows)
    (hcols : get_column_names st t = Except.ok colNames)
    (hnd : colNames.Nodup)
    (hlen : ∀ r ∈ rows, r.length = colNames.length)
    (hconv : ∀ r ∈ rows, ∀ v ∈ r, convertible v = true) :
    get_rows_dict_list st now t =
      Except.ok (rows.map (fun r => colNames.zip (r.map (normalizeVal now)))) ∧
    ∀ r ∈ rows,
      (colNames.zip (r.map (normalizeVal now))).length = r.length ∧
      (colNames.zip (r.map (normalizeVal now))).map Prod.fst = colNames ∧
      ∀ i : Nat, (colNames.zip (r.map (normalizeVal now)))[i]? =
        (colNames[i]?).bind
          (fun c => (r[i]?).map (fun v => (c, normalizeVal now v))) := by
  constructor
  · simp only [get_rows_dict_list, hcols, hconn, hsel]
    exact build_docs_eq now colNames hnd rows hlen hconv
  · intro r hr
    have hr' := hlen r hr
    refine ⟨?_, ?_, ?_⟩
    · simp [hr']
    · exact List.map_fst_zip _ _ (by simp [hr'])
    · intro i
      rw [zip_getElem?]
      cases hci : colNames[i]? with
      | none => rfl
      | some c =>
          cases hvi : r[i]? with
          | none => simp [List.getElem?_map, hvi]
          | some v => simp [List.getElem?_map, hvi]

/-- Witness for `extract_one_doc_per_row`: a two-column table with one row
holding an integer and a null extracts to exactly one two-field document. -/
theorem extract_one_doc_per_row_witness :
    get_rows_dict_list
      ⟨some ⟨"db", [⟨"db", "t", "a"⟩, ⟨"db", "t", "b"⟩],
        [("t", [[Value.vint 1, Value.vnull]])]⟩, some ()⟩
      ⟨2020, 1, 1, 0, 0, 0, 0⟩ "t" =
      Except.ok [[("a", Value.vint 1), ("b", Value.vnull)]] :=
  (extract_one_doc_per_row
    ⟨some ⟨"db", [⟨"db", "t", "a"⟩, ⟨"db", "t", "b"⟩],
      [("t", [[Value.vint 1, Value.vnull]])]⟩, some ()⟩
    ⟨"db", [⟨"db", "t", "a"⟩, ⟨"db", "t", "b"⟩],
      [("t", [[Value.vint 1, Value.vnull]])]⟩
    ⟨2020, 1, 1, 0, 0, 0, 0⟩ "t" [[Value.vint 1, Value.vnull]] ["a", "b"]
    rfl rfl rfl (by decide) (by decide) (by decide)).1

/-- C3 (code evidence): on a source whose only table is `u`, running the
script against the nonexistent table `nosuch` shows (1) schema introspection
does NOT fail — it returns an empty column list, there is no SchemaError
anywhere in the program; (2) the run fails only later, when `SELECT *`
raises the driver error for the missing table; (3) the uncaught exception
ends the interpreter with exit status 1, not 100; (4) nothing is written to
the target. -/
theorem missing_table_run :
    get_column_names
      ⟨some ⟨"db", [⟨"db", "u", "x"⟩], [("u", [[Value.vint 7]])]⟩, some ()⟩
      "nosuch" = Except.ok [] ∧
    get_rows_dict_list
      ⟨some ⟨"db", [⟨"db", "u", "x"⟩], [("u", [[Value.vint 7]])]⟩, some ()⟩
      ⟨2020, 1, 1, 0, 0, 0, 0⟩ "nosuch" = Except.error PyError.tableMissing ∧
    script_main (Except.ok ⟨"db", [⟨"db", "u", "x"⟩], [("u", [[Value.vint 7]])]⟩)
      ⟨2020, 1, 1, 0, 0, 0, 0⟩ "nosuch" "tdb" "coll" = ⟨1, []⟩ :=
  ⟨rfl, rfl, rfl⟩

/-- C4 (code evidence): on a source whose table `t` has zero rows, extraction
yields the empty document list, but `put_rows` hands that empty list to
pymongo's `insert_many`, which raises `InvalidOperation` (its documentation:
raised if `documents` is empty).  The exception is uncaught, so the run does
not complete: the interpreter exits with status 1, not 0, and no load result
with `inserted_count = 0` is ever produced. -/
theorem empty_table_run :
    get_rows_dict_list
      ⟨some ⟨"db", [⟨"db", "t", "a"⟩], [("t", [])]⟩, some ()⟩
      ⟨2020, 1, 1, 0, 0, 0, 0⟩ "t" = Except.ok [] ∧
    get_put_rows
      ⟨some ⟨"db", [⟨"db", "t", "a"⟩], [("t", [])]⟩, some ()⟩
      ⟨2020, 1, 1, 0, 0, 0, 0⟩ "t" "tdb" "coll" [] =
      Except.error PyError.invalidOperation ∧
    script_main (Except.ok ⟨"db", [⟨"db", "t", "a"⟩], [("t", [])]⟩)
      ⟨2020, 1, 1, 0, 0, 0, 0⟩ "t" "tdb" "coll" = ⟨1, []⟩ :=
  ⟨rfl, rfl, rfl⟩

/-- C10: the catalog lookup constrains only the table name, never the
connection's database/schema: the returned list is the column names of every
catalog row whose table name matches, in catalog order — so a same-named
table in another database contributes its columns too — and the result is
invariant under changing the connection's database (with the same server
catalog). -/
theorem get_column_names_ignores_schema (st : MState) (conn : Conn)
    (t : String) (hconn : st.connection = some conn) :
    get_column_names st t =
      Except.ok ((conn.catalog.filter (fun e => e.tableName == t)).map
        (fun e => e.columnName)) ∧
    (∀ e ∈ conn.catalog, e.tableName = t →
      e.columnName ∈ ((conn.catalog.filter (fun e => e.tableName == t)).map
        (fun e => e.columnName))) ∧
    ∀ (db2 : String) (tables2 : List (String × List (List Value)))
      (cl2 : Option Unit),
      get_column_names ⟨some ⟨db2, conn.catalog, tables2⟩, cl2⟩ t =
        get_column_names st t := by
  refine ⟨?_, ?_, ?_⟩
  · simp [get_column_names, hconn]
  · intro e he het
    exact List.mem_map_of_mem _ (List.mem_filter.2 ⟨he, by simp [het]⟩)
  · intro db2 tables2 cl2
    simp [get_column_names, hconn]

/-- Witness for `get_column_names_ignores_schema`: with table `t` present in
both `db1` and `db2`, the lookup on a `db1` connection returns the columns
of both, in catalog order. -/
theorem get_column_names_ignores_schema_witness :
    get_column_names
      ⟨some ⟨"db1", [⟨"db1", "t", "a"⟩, ⟨"db2", "t", "b"⟩], []⟩, none⟩ "t" =
      Except.ok ["a", "b"] :=
  (get_column_names_ignores_schema
    ⟨some ⟨"db1", [⟨"db1", "t", "a"⟩, ⟨"db2", "t", "b"⟩], []⟩, none⟩
    ⟨"db1", [⟨"db1", "t", "a"⟩, ⟨"db2", "t", "b"⟩], []⟩ "t" rfl).1

end MariaDBToMongo
